import Mathlib

/-!
Verification of the ddtrace harvest/frame/publish pipeline
(`src/sys/modules/ddtrace/ddtrace.c` and
`src/contrib/ddtrace/ddtrace_consumer.c`) against its natural-language
specification.  Every definition below is a shallow embedding of the
corresponding C function; machine pointers are modelled as `Option Nat`,
byte buffers as `List Nat`, and external primitives (the DTrace buffer
xcall, the Kafka broker) as explicit parameters describing their observable
behaviour at each call site.
-/

namespace DDTrace

/-! ## Framing walk of `ddtrace_persist_trace`

The walk reads a 4-byte enabled-probe id (`dtrace_epid_t`) at offset
`size`, skips fillers (`DTRACE_EPIDNONE = 0`) by the header size, aborts on
a zero record size, and otherwise either closes the current frame (when the
next record would push `msg_size` over `ddtrace_record_bound`) or
accumulates the record, closing the frame when `msg_size` equals
`dtbd_size`.  Frames are the byte spans `[msg_start, msg_start + msg_size)`
handed to `dlog_produce`.  The C loop does not terminate when a single
record exceeds the bound, so the embedding carries explicit fuel; with
every record at most the bound, `2 * total + 2` iterations always suffice.
-/

/-- `sizeof(dtrace_epid_t)`: the fixed header skipped for a filler. -/
def epidHdrSize : Nat := 4

/-- Mutable state of the framing walk: total bytes consumed (`size`),
current frame start and length (`msg_start`, `msg_size`), the frames
emitted so far as `(start, length)` spans, and whether the walk aborted on
a zero-sized record. -/
structure FrameWalk where
  size : Nat
  msg_start : Nat
  msg_size : Nat
  frames : List (Nat × Nat)
  aborted : Bool
  deriving Repr, DecidableEq

/-- One `while (size < desc->dtbd_size)` loop of `ddtrace_persist_trace`,
with `epidAt off` the epid read at byte offset `off` and `sizeOf e` the
result of `dtrace_epid2size(state, e)`. -/
def persistTraceLoop (epidAt sizeOf : Nat → Nat) (bound total : Nat) :
    Nat → FrameWalk → FrameWalk
  | 0, st => st
  | fuel + 1, st =>
    if st.size < total then
      let epid := epidAt st.size
      if epid = 0 then
        persistTraceLoop epidAt sizeOf bound total fuel
          { st with size := st.size + epidHdrSize }
      else if sizeOf epid = 0 then
        { st with aborted := true }
      else if st.msg_size + sizeOf epid > bound then
        persistTraceLoop epidAt sizeOf bound total fuel
          { st with
            frames := st.frames ++ [(st.msg_start, st.msg_size)]
            msg_start := st.msg_start + st.msg_size
            msg_size := 0 }
      else
        let st2 := { st with
          size := st.size + sizeOf epid
          msg_size := st.msg_size + sizeOf epid }
        if st2.msg_size = total then
          persistTraceLoop epidAt sizeOf bound total fuel
            { st2 with
              frames := st2.frames ++ [(st2.msg_start, st2.msg_size)]
              msg_start := st2.msg_start + st2.msg_size
              msg_size := 0 }
        else
          persistTraceLoop epidAt sizeOf bound total fuel st2
    else st

/-- The framing walk of `ddtrace_persist_trace` on a region of `total`
bytes, starting from `size = msg_start = msg_size = 0`. -/
def ddtrace_persist_trace (epidAt sizeOf : Nat → Nat) (bound total : Nat) :
    FrameWalk :=
  persistTraceLoop epidAt sizeOf bound total (2 * total + 2)
    ⟨0, 0, 0, [], false⟩

/-- Re-assemble the emitted frames in emission order: concatenate the byte
spans they denote in the drained region. -/
def reassemble (data : List Nat) (frames : List (Nat × Nat)) : List Nat :=
  (frames.map (fun p => (data.drop p.1).take p.2)).flatten

/-- A frame `(start, len)` is a concatenation of whole records when both of
its endpoints are record boundaries of the region layout. -/
def frameWholeRecords (boundaries : List Nat) (f : Nat × Nat) : Prop :=
  f.1 ∈ boundaries ∧ f.1 + f.2 ∈ boundaries

instance (boundaries : List Nat) (f : Nat × Nat) :
    Decidable (frameWholeRecords boundaries f) := by
  unfold frameWholeRecords
  infer_instance

/-! ## Session registry and `ddtrace_open`

A `client` bundles the per-session state of `struct client`; the registry
bucket chain (one `LIST_HEAD` of `ddtrace_hashtbl`) is a `List Client`,
with `LIST_INSERT_HEAD` being `List.cons`.  `dtrace_state` identity is a
`Nat` (the pointer hashed by `murmur3_32_hash`).  The file-descriptor
plumbing `fget_locked` / `f_cdevpriv` / `cdpd_data` is modelled by nested
options, `NULL` being `none`. -/

structure Client where
  state : Nat
  dlog_handle : Nat
  ddtrace_exit : Bool
  deriving Repr, DecidableEq

/-- Inputs of `ddtrace_open` other than the bucket chain: the opening
`dtrace_state` (its identity, its `dts_epid`, the `dtrace_epid2size`
table, its buffer-policy option and its `DTRACEOPT_DDTRACEARG` option) and
the ambient file-descriptor table resolution. -/
structure OpenEnv where
  state : Nat
  dts_epid : Nat
  epid2size : Nat → Nat
  bufpolicy : Nat
  ddtracearg_set : Bool
  fp : Option (Option (Option Nat))

/-- `DTRACEOPT_BUFPOLICY_SWITCH` (the only accepted policy value). -/
def bufpolicySwitch : Nat := 2

/-- Result of `ddtrace_open`: each early `return` of the C function, or
success (client allocated, worker kthread added, client inserted). -/
inductive OpenResult where
  | mtuExceeded
  | badPolicy
  | argUnset
  | badFd
  | noCdevpriv
  | noHandle
  | ok
  deriving Repr, DecidableEq

/-- The MTU precondition loop of `ddtrace_open`:
`for (epid = 1; epid < state->dts_epid; epid++)
   if (dtrace_epid2size(state, epid) > DL_MTU) return;`
written with explicit fuel (`dts_epid - epid` iterations remain). -/
def mtuCheckLoop (sizeOf : Nat → Nat) (mtu nEpid : Nat) :
    Nat → Nat → Bool
  | _, 0 => true
  | epid, fuel + 1 =>
    if epid < nEpid then
      if sizeOf epid > mtu then false
      else mtuCheckLoop sizeOf mtu nEpid (epid + 1) fuel
    else true

/-- Whether the MTU precondition check of `ddtrace_open` passes. -/
def mtuCheck (sizeOf : Nat → Nat) (mtu nEpid : Nat) : Bool :=
  mtuCheckLoop sizeOf mtu nEpid 1 nEpid

/-- The client instance allocated by `ddtrace_open` on success. -/
def mkClient (env : OpenEnv) (handle : Nat) : Client :=
  { state := env.state, dlog_handle := handle, ddtrace_exit := false }

/-- `ddtrace_open` against the log MTU `mtu` (`DL_MTU`): runs the guard
sequence and on success prepends the freshly allocated client to the
bucket chain.  The result reports which guard fired; only `.ok` creates a
session and starts the worker kthread. -/
def ddtrace_open (mtu : Nat) (env : OpenEnv) (chain : List Client) :
    List Client × OpenResult :=
  if mtuCheck env.epid2size mtu env.dts_epid = false then
    (chain, .mtuExceeded)
  else if env.bufpolicy ≠ bufpolicySwitch then
    (chain, .badPolicy)
  else if env.ddtracearg_set = false then
    (chain, .argUnset)
  else
    match env.fp with
    | none => (chain, .badFd)
    | some none => (chain, .noCdevpriv)
    | some (some none) => (chain, .noHandle)
    | some (some (some handle)) =>
        (mkClient env handle :: chain, .ok)

/-- `ddtrace_close`: walk the bucket chain and remove the first client
whose `ddtrace_state` matches, after signalling its exit flag and waiting
for the worker; clients for other states are untouched. -/
def ddtrace_close (state : Nat) : List Client → List Client
  | [] => []
  | k :: rest =>
    if state = k.state then rest
    else k :: ddtrace_close state rest

/-! ## Harvest cycle: `ddtrace_buffer_switch`

A `DtBuf` carries the fields of `dtrace_buffer_t` the walk reads: the
`dtb_tomax` / `dtb_xamot` pointers (`Option Nat`, `none` = `NULL`), the
active region's running counters, the drained (`xamot`) counters and the
last-switch timestamp.  The external xcall `dtrace_buffer_switch` (the
DTrace primitive, outside this repository) either atomically exchanges the
two regions — making the old active region's counters the `xamot_*`
counters — or silently does nothing; each CPU's outcome is given by the
`swapOk` parameter. -/

structure DtBuf where
  tomax : Option Nat
  xamot : Option Nat
  offset : Nat
  drops : Nat
  errors : Nat
  xamot_offset : Nat
  xamot_drops : Nat
  xamot_errors : Nat
  switched : Nat
  deriving Repr, DecidableEq

/-- Effect of the `dtrace_xcall(cpu, dtrace_buffer_switch, buf)` call:
on success the region roles exchange and the drained counters become the
old active counters; on silent failure the buffer is unchanged. -/
def xcallSwitch (b : DtBuf) (ok : Bool) : DtBuf :=
  if ok then
    { b with
      tomax := b.xamot
      xamot := b.tomax
      xamot_offset := b.offset
      xamot_drops := b.drops
      xamot_errors := b.errors
      offset := 0, drops := 0, errors := 0 }
  else b

/-- The `dtrace_bufdesc_t` handed to `ddtrace_persist_trace` for a drained
region. -/
structure TraceDesc where
  data : Option Nat
  size : Nat
  drops : Nat
  errors : Nat
  timestamp : Nat
  deriving Repr, DecidableEq

/-- The per-CPU loop of `ddtrace_buffer_switch`, processing the buffers of
CPUs `cpu, cpu+1, ...` in order and threading the session's running
`dts_errors` total.  `break` on a never-written active region
(`dtb_tomax == NULL`), `continue` (after the inconsistency assert) when the
xcall did not exchange the pointers, otherwise accumulate the drained
error count and persist the drained region when it is non-empty.  Returns
the new `dts_errors` and the descriptors persisted this cycle, in order. -/
def bufferSwitchLoop (swapOk : Nat → Bool) :
    Nat → List DtBuf → Nat → Nat × List TraceDesc
  | _, [], dts_errors => (dts_errors, [])
  | cpu, b :: rest, dts_errors =>
    match b.tomax with
    | none => (dts_errors, [])
    | some cached =>
      let b2 := xcallSwitch b (swapOk cpu)
      if b2.tomax = some cached then
        bufferSwitchLoop swapOk (cpu + 1) rest dts_errors
      else
        let e2 := dts_errors + b2.xamot_errors
        let desc : TraceDesc :=
          { data := b2.xamot, size := b2.xamot_offset,
            drops := b2.xamot_drops, errors := b2.xamot_errors,
            timestamp := b2.switched }
        let tail := bufferSwitchLoop swapOk (cpu + 1) rest e2
        if desc.size ≠ 0 then (tail.1, desc :: tail.2)
        else (tail.1, tail.2)

/-- `ddtrace_buffer_switch` over the session's per-CPU buffers, starting
from CPU 0 with the session's current `dts_errors` total. -/
def ddtrace_buffer_switch (swapOk : Nat → Bool) (bufs : List DtBuf)
    (dts_errors : Nat) : Nat × List TraceDesc :=
  bufferSwitchLoop swapOk 0 bufs dts_errors

/-! ## Worker loop: `ddtrace_thread`

The thread first runs the one-time metadata export; on failure it returns
at once.  Otherwise it loops: sleep on the condition variable, check the
exit flag (break when set), touch the liveness timestamp and run one
`ddtrace_buffer_switch` cycle.  After the loop it runs one final
`ddtrace_buffer_switch` unconditionally.  `sched` lists the value of the
exit flag observed at each successive wake; the trace records every
`ddtrace_buffer_switch` invocation (which happens whether or not the
buffers hold data).  `none` means the schedule ran out before the exit
flag was observed (the thread is still looping). -/

inductive ThreadEv where
  | harvest
  | finalFlush
  deriving Repr, DecidableEq

/-- The `for (;;)` loop of `ddtrace_thread`, plus the final
`ddtrace_buffer_switch` after `break`. -/
def threadLoop : List Bool → Option (List ThreadEv)
  | [] => none
  | exitFlag :: rest =>
    if exitFlag then some [.finalFlush]
    else (threadLoop rest).map (fun tr => .harvest :: tr)

/-- `ddtrace_thread`: metadata export first (returning immediately on
failure, before the loop), then the harvest loop with the final flush. -/
def ddtrace_thread_trace (metadataOk : Bool) (sched : List Bool) :
    Option (List ThreadEv) :=
  if metadataOk then threadLoop sched else some []

/-! ## Publisher: the retry loop of `dtc_buffered_handler`

On the `}` fragment the handler produces the accumulated message.  When
`rd_kafka_produce` fails with `RD_KAFKA_RESP_ERR__QUEUE_FULL`, it calls
`rd_kafka_poll(tx_rk, 1000)` (a pump bounded by 1000 ms) and retries the
same buffer (`goto retry`); on any other produce failure it falls through
and the buffer is deleted (the frame is dropped); on success the frame is
enqueued.  `broker n` gives the broker's response to the `n`-th produce
attempt for this frame.  The C loop has no attempt bound, so the embedding
carries fuel. -/

/-- Broker response to one `rd_kafka_produce` attempt. -/
inductive ProduceRes where
  | ok
  | queueFull
  | otherErr
  deriving Repr, DecidableEq

/-- Pump timeout passed to `rd_kafka_poll` on the queue-full path (ms). -/
def dtcPumpTimeoutMs : Nat := 1000

/-- Outcome of publishing one frame: enqueued (with the frame and the
timeouts of the pumps performed before success) or dropped on a
non-queue-full error (after the recorded pumps). -/
inductive PubOutcome where
  | enqueued (frame : List Nat) (pumps : List Nat)
  | dropped (pumps : List Nat)
  deriving Repr, DecidableEq

/-- The `retry:` loop of `dtc_buffered_handler` for one complete frame,
starting at attempt `attempt` having already performed `pumps`. -/
def dtcRetryLoop (broker : Nat → ProduceRes) (frame : List Nat) :
    Nat → Nat → List Nat → Option PubOutcome
  | 0, _, _ => none
  | fuel + 1, attempt, pumps =>
    match broker attempt with
    | .ok => some (.enqueued frame pumps)
    | .queueFull =>
        dtcRetryLoop broker frame fuel (attempt + 1)
          (pumps ++ [dtcPumpTimeoutMs])
    | .otherErr => some (.dropped pumps)

/-- Publishing one complete frame through `dtc_buffered_handler`. -/
def dtc_publish (broker : Nat → ProduceRes) (frame : List Nat)
    (fuel : Nat) : Option PubOutcome :=
  dtcRetryLoop broker frame fuel 0 []

/-! ## Consumer input: `dtc_get_buf`

One Kafka message: its error flag, its length, its optional key (raw
bytes; `rd_kafka` reports the key's length alongside, here the list
length) and its payload bytes.  The C code accepts the message only when
`strncmp(key, "ddtrace", key_len) == 0`; `strncmp` stops at `key_len`
characters or at a terminator in either string, so the embedding compares
against the `NUL`-terminated literal and treats the end of a byte list as
the terminator. -/

structure KMsg where
  err : Bool
  len : Nat
  key : Option (List Nat)
  payload : List Nat
  deriving Repr, DecidableEq

/-- The bytes of the literal `"ddtrace"`. -/
def ddtraceKeyBytes : List Nat := [100, 100, 116, 114, 97, 99, 101]

/-- `strncmp(a, b, n) == 0`, the two byte lists standing for
`NUL`-terminated strings whose terminator sits right past the list. -/
def strncmpEq : List Nat → List Nat → Nat → Bool
  | _, _, 0 => true
  | [], [], _ + 1 => true
  | [], y :: _, _ + 1 => y = 0
  | x :: _, [], _ + 1 => x = 0
  | x :: xs, y :: ys, n + 1 =>
    if x = y then
      if x = 0 then true else strncmpEq xs ys n
    else false

/-- The `dtrace_bufdesc_t` built by `dtc_get_buf` (only the fields it
writes: the copied payload, its size and the CPU). -/
structure RxBuf where
  data : List Nat
  size : Nat
  cpu : Nat
  deriving Repr, DecidableEq

/-- `dtc_get_buf`: allocate a zeroed descriptor (failing with `-1`, here
`none`, when `dt_zalloc` fails), consume one message (`msg = none` when
`rd_kafka_consume` returns `NULL`), copy the payload in only for a
non-error, non-empty message whose non-`NULL` key passes the `strncmp`
check, and otherwise hand back the zero-sized descriptor. -/
def dtc_get_buf (allocBufOk allocDataOk : Bool) (msg : Option KMsg)
    (cpu : Nat) : Option RxBuf :=
  if allocBufOk = false then none
  else
    match msg with
    | none => some { data := [], size := 0, cpu := 0 }
    | some m =>
      if m.err = false ∧ 0 < m.len then
        match m.key with
        | some k =>
          if strncmpEq k ddtraceKeyBytes k.length then
            if allocDataOk = false then none
            else some { data := m.payload.take m.len, size := m.len,
                        cpu := cpu }
          else some { data := [], size := 0, cpu := 0 }
        | none => some { data := [], size := 0, cpu := 0 }
      else some { data := [], size := 0, cpu := 0 }

/-! ## Concrete instances used by counterexamples and witnesses -/

/-- A region of two whole 10-byte records at offsets 0 and 10 (epid 1,
`dtrace_epid2size` = 10 for every epid), drained size 20, record bound 15:
the smallest filler-free input on which the walk must split frames. -/
def epidAtTwoRecs : Nat → Nat :=
  fun off => if off = 0 then 1 else if off = 10 then 1 else 0

/-- Size lookup returning 10 for every epid (every lookup nonzero). -/
def sizeOfTen : Nat → Nat := fun _ => 10

/-- A region opening with a 4-byte filler (`DTRACE_EPIDNONE` read at
offset 0) followed by two whole 10-byte records at offsets 4 and 14,
drained size 24. -/
def epidAtFillerRecs : Nat → Nat :=
  fun off => if off = 4 then 1 else if off = 14 then 1 else 0

/-- An open environment that passes every guard of `ddtrace_open`:
`dts_epid = 3` with both enabled epids (1 and 2) of size 100, switch
buffer policy, `DTRACEOPT_DDTRACEARG` set and resolving to dlog handle
42. -/
def envDup : OpenEnv :=
  { state := 7
    dts_epid := 3
    epid2size := fun e => if e = 0 then 0 else 100
    bufpolicy := bufpolicySwitch
    ddtracearg_set := true
    fp := some (some (some 42)) }

/-- A bucket chain already holding a session for `dtrace_state` 7, the
handle `envDup` opens. -/
def chainDup : List Client :=
  [{ state := 7, dlog_handle := 42, ddtrace_exit := false }]

/-- An open environment whose enabled epid 2 has record size 2000,
exceeding an MTU of 1024. -/
def envBad : OpenEnv :=
  { state := 9
    dts_epid := 3
    epid2size := fun e => if e = 2 then 2000 else 100
    bufpolicy := bufpolicySwitch
    ddtracearg_set := true
    fp := some (some (some 42)) }

/-- A per-CPU buffer whose active region has never been written
(`dtb_tomax == NULL`). -/
def bufNull : DtBuf :=
  { tomax := none, xamot := some 2, offset := 0, drops := 0, errors := 0,
    xamot_offset := 0, xamot_drops := 0, xamot_errors := 0, switched := 0 }

/-- A per-CPU buffer with 8 written bytes in its active region. -/
def bufData : DtBuf :=
  { tomax := some 1, xamot := some 2, offset := 8, drops := 0, errors := 0,
    xamot_offset := 0, xamot_drops := 0, xamot_errors := 0, switched := 5 }

/-- A per-CPU buffer whose active region carries 5 drops and 3 errors. -/
def bufDrops : DtBuf :=
  { tomax := some 1, xamot := some 2, offset := 8, drops := 5, errors := 3,
    xamot_offset := 0, xamot_drops := 0, xamot_errors := 0, switched := 0 }

/-- `bufDrops` with its drop counter zeroed and nothing else changed. -/
def bufNoDrops : DtBuf :=
  { bufDrops with drops := 0 }

/-- A broker that reports queue-full on the first two produce attempts and
accepts the third. -/
def brokerTwoFull : Nat → ProduceRes :=
  fun i => if i < 2 then .queueFull else .ok

/-- A well-formed Kafka message whose key is exactly `"ddtrace"`. -/
def msgGood : KMsg :=
  { err := false, len := 3, key := some ddtraceKeyBytes,
    payload := [9, 8, 7] }

/-- A Kafka message whose 2-byte key `"dd"` is a proper truncation of
`"ddtrace"`: `strncmp(key, "ddtrace", 2) == 0` although the key differs
from `"ddtrace"`. -/
def msgShortKey : KMsg :=
  { err := false, len := 5, key := some [100, 100],
    payload := [1, 2, 3, 4, 5] }

/-! ## Helper lemmas -/

/-- The MTU loop of `ddtrace_open` accepts exactly when every epid from
`start` up to `nEpid - 1` has record size at most `mtu` (given enough
fuel). -/
theorem mtuCheckLoop_iff (sizeOf : Nat → Nat) (mtu nEpid : Nat) :
    ∀ fuel start, nEpid - start ≤ fuel →
      (mtuCheckLoop sizeOf mtu nEpid start fuel = true ↔
        ∀ e, start ≤ e → e < nEpid → sizeOf e ≤ mtu) := by
  intro fuel
  induction fuel with
  | zero =>
    intro start h
    constructor
    · intro _ e he hlt
      omega
    · intro _
      rfl
  | succ fuel ih =>
    intro start h
    simp only [mtuCheckLoop]
    by_cases hlt : start < nEpid
    · simp only [if_pos hlt]
      by_cases hsz : sizeOf start > mtu
      · simp only [if_pos hsz]
        constructor
        · intro hfalse
          exact absurd hfalse (by simp)
        · intro hall
          exact absurd (hall start le_rfl hlt) (by omega)
      · simp only [if_neg hsz]
        rw [ih (start + 1) (by omega)]
        constructor
        · intro hall e he hlt2
          rcases Nat.eq_or_lt_of_le he with heq | hgt
          · rw [← heq]
            omega
          · exact hall e hgt hlt2
        · intro hall e he hlt2
          exact hall e (by omega) hlt2
    · simp only [if_neg hlt]
      constructor
      · intro _ e he hlt2
        omega
      · intro _
        trivial

/-- `mtuCheck` passes exactly when every enabled epid (1 to
`dts_epid - 1`) has record size at most the MTU. -/
theorem mtuCheck_iff (sizeOf : Nat → Nat) (mtu nEpid : Nat) :
    mtuCheck sizeOf mtu nEpid = true ↔
      ∀ e, 1 ≤ e → e < nEpid → sizeOf e ≤ mtu :=
  mtuCheckLoop_iff sizeOf mtu nEpid nEpid 1 (by omega)

/-- When `ddtrace_open` succeeds, the MTU check passed, the dlog handle
resolved, and the new client was prepended to the untouched bucket
chain. -/
theorem ddtrace_open_ok (mtu : Nat) (env : OpenEnv) (chain : List Client)
    (h : (ddtrace_open mtu env chain).2 = OpenResult.ok) :
    mtuCheck env.epid2size mtu env.dts_epid = true ∧
    ∃ handle, env.fp = some (some (some handle)) ∧
      (ddtrace_open mtu env chain).1 = mkClient env handle :: chain := by
  unfold ddtrace_open at h ⊢
  split_ifs at h ⊢ with h1 h2 h3
  rcases hfp : env.fp with _ | f
  · rw [hfp] at h
    exact absurd h (by simp)
  · rcases f with _ | g
    · rw [hfp] at h
      exact absurd h (by simp)
    · rcases g with _ | handle
      · rw [hfp] at h
        exact absurd h (by simp)
      · exact ⟨by simpa using h1, handle, rfl, rfl⟩

/-- The session's running `dts_errors` total never decreases across one
pass of the per-CPU harvest loop. -/
theorem bufferSwitchLoop_errors_mono (swapOk : Nat → Bool) :
    ∀ (bufs : List DtBuf) (cpu e : Nat),
      e ≤ (bufferSwitchLoop swapOk cpu bufs e).1 := by
  intro bufs
  induction bufs with
  | nil =>
    intro cpu e
    simp [bufferSwitchLoop]
  | cons b rest ih =>
    intro cpu e
    simp only [bufferSwitchLoop]
    rcases htom : b.tomax with _ | cached
    · simp
    · by_cases hsw : (xcallSwitch b (swapOk cpu)).tomax = some cached
      · simp only [if_pos hsw]
        exact ih (cpu + 1) e
      · simp only [if_neg hsw]
        split
        · exact le_trans (Nat.le_add_right _ _) (ih (cpu + 1) _)
        · exact le_trans (Nat.le_add_right _ _) (ih (cpu + 1) _)

/-- On a unit whose xcall genuinely exchanged the buffer roles, the
drained region's error count is added to the running total before the
remaining units are processed. -/
theorem bufferSwitchLoop_cons_swapped (swapOk : Nat → Bool) (cpu : Nat)
    (b : DtBuf) (rest : List DtBuf) (e p : Nat)
    (htom : b.tomax = some p) (hok : swapOk cpu = true)
    (hne : b.xamot ≠ some p) :
    (bufferSwitchLoop swapOk cpu (b :: rest) e).1 =
      (bufferSwitchLoop swapOk (cpu + 1) rest (e + b.errors)).1 := by
  have hx : xcallSwitch b (swapOk cpu) =
      { b with
        tomax := b.xamot, xamot := b.tomax,
        xamot_offset := b.offset, xamot_drops := b.drops,
        xamot_errors := b.errors,
        offset := 0, drops := 0, errors := 0 } := by
    rw [hok]
    rfl
  simp only [bufferSwitchLoop, htom, hx]
  rw [if_neg hne]
  split <;> rfl

/-- Running the retry loop from attempt `a`: if the broker reports
queue-full for the next `K` attempts and accepts the one after, the loop
enqueues the frame after exactly `K` further pumps of 1000 ms each. -/
theorem dtcRetryLoop_queueFull (broker : Nat → ProduceRes)
    (frame : List Nat) :
    ∀ (K fuel a : Nat) (ps : List Nat),
      (∀ i, i < K → broker (a + i) = ProduceRes.queueFull) →
      broker (a + K) = ProduceRes.ok → K < fuel →
      dtcRetryLoop broker frame fuel a ps =
        some (PubOutcome.enqueued frame
          (ps ++ List.replicate K dtcPumpTimeoutMs)) := by
  intro K
  induction K with
  | zero =>
    intro fuel a ps hfail hok hfuel
    rcases fuel with _ | fuel
    · omega
    · simp only [dtcRetryLoop]
      rw [show a + 0 = a from rfl] at hok
      rw [hok]
      simp
  | succ K ih =>
    intro fuel a ps hfail hok hfuel
    rcases fuel with _ | fuel
    · omega
    · simp only [dtcRetryLoop]
      have h0 : broker a = ProduceRes.queueFull := by
        have := hfail 0 (by omega)
        simpa using this
      rw [h0]
      have := ih fuel (a + 1) (ps ++ [dtcPumpTimeoutMs])
        (fun i hi => by
          have := hfail (i + 1) (by omega)
          rw [show a + (i + 1) = a + 1 + i from by omega] at this
          exact this)
        (by
          rw [show a + 1 + K = a + (K + 1) from by omega]
          exact hok)
        (by omega)
      rw [this]
      simp [List.replicate_succ, List.append_assoc]

/-! ## Claim theorems -/

/-- C1: the claim states that re-assembling the frames emitted by the
framing walk of `ddtrace_persist_trace`, in emission order, reproduces
the original input byte stream exactly, for every stream of whole,
correctly-sized records.  The code violates this: its last-record test
compares the current frame size `msg_size`, not the total consumed
`size`, against `dtbd_size`, so whenever the region splits into more than
one frame the final frame is never produced.  On a region of two whole
10-byte records (bound 15) the walk emits only the span `[0, 10)`; the
bytes `[10, 20)` are dropped and re-assembly does not reproduce the
input. -/
theorem C1_final_frame_dropped :
    (ddtrace_persist_trace epidAtTwoRecs sizeOfTen 15 20).frames =
      [(0, 10)] ∧
    reassemble (List.range 20)
        (ddtrace_persist_trace epidAtTwoRecs sizeOfTen 15 20).frames ≠
      List.range 20 := by
  decide

/-- C2: the claim states that every frame emitted by the framing walk is
at most the configured bound and is a concatenation of whole records, for
every region and every bound larger than the largest record.  The code
violates the whole-record half: a skipped filler advances `size` but not
`msg_start`/`msg_size`, so after a filler the frame spans drift off the
record layout.  On a region laid out as filler `[0,4)`, record `[4,14)`,
record `[14,24)` with bound 15 (> largest record 10), the walk emits the
span `[0, 10)`, whose right endpoint falls strictly inside the record
occupying `[4, 14)` — a partial record inside a frame. -/
theorem C2_filler_frame_splits_record :
    (ddtrace_persist_trace epidAtFillerRecs sizeOfTen 15 24).frames =
      [(0, 10)] ∧
    ¬ frameWholeRecords [0, 4, 14, 24] (0, 10) ∧
    10 < 15 := by
  decide

/-- C3 counterexample: the claim states that a second `ddtrace_open` on a
handle already present in the registry fails with an "already open"
condition and creates no new session.  The code performs no duplicate
check: opening `dtrace_state` 7 against a chain already holding a session
for state 7 succeeds and leaves two clients for that state in the
chain. -/
theorem C3_duplicate_open_succeeds :
    (ddtrace_open 1024 envDup chainDup).2 = OpenResult.ok ∧
    ((ddtrace_open 1024 envDup chainDup).1.filter
        (fun c => c.state = 7)).length = 2 := by
  decide

/-- C3 amended: a second open on an already-registered handle does not
fail; it creates a new session at the head of the bucket chain, and the
existing session's entry and state are left unchanged (the old chain is
the untouched tail of the new one). -/
theorem C3_amended_duplicate_open_prepends (mtu : Nat) (env : OpenEnv)
    (chain : List Client)
    (h : (ddtrace_open mtu env chain).2 = OpenResult.ok) :
    ∃ handle, env.fp = some (some (some handle)) ∧
      (ddtrace_open mtu env chain).1 = mkClient env handle :: chain :=
  (ddtrace_open_ok mtu env chain h).2

/-- Witness for the amended C3 theorem at the concrete duplicate-open
input. -/
theorem C3_amended_witness :
    ∃ handle, envDup.fp = some (some (some handle)) ∧
      (ddtrace_open 1024 envDup chainDup).1 =
        mkClient envDup handle :: chainDup :=
  C3_amended_duplicate_open_prepends 1024 envDup chainDup (by decide)

/-- C4: `ddtrace_open` checks every enabled epid (1 to `dts_epid - 1`)
against the log MTU before anything else: if any enabled record size
exceeds the MTU the open returns at once with the registry untouched and
no session created or worker started (so the violation is never first
discovered mid-stream by a later harvest or export, which only run for
sessions the open created); and a successful open guarantees every
enabled record size is within the MTU. -/
theorem C4_open_rejects_oversized_records (mtu : Nat) (env : OpenEnv)
    (chain : List Client) :
    ((∃ e, 1 ≤ e ∧ e < env.dts_epid ∧ mtu < env.epid2size e) →
      ddtrace_open mtu env chain = (chain, OpenResult.mtuExceeded)) ∧
    ((ddtrace_open mtu env chain).2 = OpenResult.ok →
      ∀ e, 1 ≤ e → e < env.dts_epid → env.epid2size e ≤ mtu) := by
  constructor
  · rintro ⟨e, h1, h2, h3⟩
    have hfalse : mtuCheck env.epid2size mtu env.dts_epid = false := by
      rcases hb : mtuCheck env.epid2size mtu env.dts_epid with _ | _
      · rfl
      · have := (mtuCheck_iff env.epid2size mtu env.dts_epid).mp hb e h1 h2
        omega
    unfold ddtrace_open
    rw [if_pos hfalse]
  · intro h
    exact (mtuCheck_iff env.epid2size mtu env.dts_epid).mp
      (ddtrace_open_ok mtu env chain h).1

/-- Witness for C4 at a concrete open whose enabled epid 2 has record
size 2000 against MTU 1024. -/
theorem C4_witness :
    ddtrace_open 1024 envBad [] = ([], OpenResult.mtuExceeded) :=
  (C4_open_rejects_oversized_records 1024 envBad []).1
    ⟨2, by decide, by decide, by decide⟩

/-- C5: if the broker reports queue-full for the first `K` produce
attempts of a frame and accepts attempt `K`, the handler's retry loop
reports the frame enqueued with its contents intact, having pumped the
broker exactly `K` times, each pump bounded by 1000 ms
(`rd_kafka_poll(tx_rk, 1000)`); the frame is never dropped on the
queue-full path. -/
theorem C5_queue_full_retry_enqueues (broker : Nat → ProduceRes)
    (frame : List Nat) (K fuel : Nat)
    (hfail : ∀ i, i < K → broker i = ProduceRes.queueFull)
    (hok : broker K = ProduceRes.ok) (hfuel : K < fuel) :
    dtc_publish broker frame fuel =
      some (PubOutcome.enqueued frame
        (List.replicate K dtcPumpTimeoutMs)) := by
  unfold dtc_publish
  have := dtcRetryLoop_queueFull broker frame K fuel 0 []
    (fun i hi => by simpa using hfail i hi) (by simpa using hok) hfuel
  simpa using this

/-- Witness for C5 with a broker that is queue-full on its first two
attempts. -/
theorem C5_witness :
    dtc_publish brokerTwoFull [1, 2, 3] 3 =
      some (PubOutcome.enqueued [1, 2, 3]
        (List.replicate 2 dtcPumpTimeoutMs)) :=
  C5_queue_full_retry_enqueues brokerTwoFull [1, 2, 3] 2 3
    (fun i hi => by
      have h : i = 0 ∨ i = 1 := by omega
      rcases h with h | h <;> subst h <;> rfl)
    (by rfl) (by omega)

/-- C6 counterexample: the claim states that a unit whose active region
was never written is skipped alone, with all remaining units still
processed in the same cycle.  The code instead `break`s out of the
per-CPU loop: with CPU 0 never written and CPU 1 holding 8 bytes, the
cycle produces nothing at all, although processing CPU 1 alone would have
drained a descriptor. -/
theorem C6_null_tomax_counterexample :
    ddtrace_buffer_switch (fun _ => true) [bufNull, bufData] 0 = (0, []) ∧
    ddtrace_buffer_switch (fun _ => true) [bufData] 0 =
      (0, [{ data := some 1, size := 8, drops := 0, errors := 0,
             timestamp := 5 }]) := by
  decide

/-- C6 amended: a unit whose active region has never been written
(`dtb_tomax == NULL`) terminates the harvest walk for that cycle: that
unit and every remaining unit produce no data and the running error
total is left unchanged. -/
theorem C6_amended_null_tomax_ends_cycle (swapOk : Nat → Bool)
    (cpu e : Nat) (b : DtBuf) (rest : List DtBuf) (h : b.tomax = none) :
    bufferSwitchLoop swapOk cpu (b :: rest) e = (e, []) := by
  simp only [bufferSwitchLoop, h]

/-- Witness for the amended C6 theorem at the two-CPU input. -/
theorem C6_amended_witness :
    bufferSwitchLoop (fun _ => true) 0 (bufNull :: [bufData]) 0 = (0, []) :=
  C6_amended_null_tomax_ends_cycle (fun _ => true) 0 0 bufNull [bufData]
    (by rfl)

/-- C7 counterexample: the claim states that both the drained region's
drop count and its error count are added to the session's running
totals.  The code only executes `state->dts_errors += dtb_xamot_errors`:
on a drained region with 5 drops and 3 errors the session total moves
from 100 to 103, not 108, and zeroing the drop count leaves the
resulting total identical — the drop count is accumulated into no
session total. -/
theorem C7_drops_not_accumulated :
    (ddtrace_buffer_switch (fun _ => true) [bufDrops] 100).1 = 103 ∧
    (ddtrace_buffer_switch (fun _ => true) [bufDrops] 100).1 ≠
      100 + 5 + 3 ∧
    (ddtrace_buffer_switch (fun _ => true) [bufNoDrops] 100).1 =
      (ddtrace_buffer_switch (fun _ => true) [bufDrops] 100).1 := by
  decide

/-- C7 amended: on every successfully swapped unit the drained region's
error count is added to the session's running `dts_errors` total, and
that total never decreases across a harvest pass, even one that drains
zero bytes; the drop count is copied into the drained descriptor only and
is not accumulated into any session total. -/
theorem C7_amended_errors_accumulated (swapOk : Nat → Bool)
    (bufs : List DtBuf) (cpu e : Nat) (b : DtBuf) (rest : List DtBuf)
    (p : Nat) (htom : b.tomax = some p) (hok : swapOk cpu = true)
    (hne : b.xamot ≠ some p) :
    e ≤ (bufferSwitchLoop swapOk cpu bufs e).1 ∧
    (bufferSwitchLoop swapOk cpu (b :: rest) e).1 =
      (bufferSwitchLoop swapOk (cpu + 1) rest (e + b.errors)).1 :=
  ⟨bufferSwitchLoop_errors_mono swapOk bufs cpu e,
   bufferSwitchLoop_cons_swapped swapOk cpu b rest e p htom hok hne⟩

/-- Witness for the amended C7 theorem at the drained region with 3
errors. -/
theorem C7_amended_witness :
    100 ≤ (bufferSwitchLoop (fun _ => true) 0 [bufDrops] 100).1 ∧
    (bufferSwitchLoop (fun _ => true) 0 (bufDrops :: []) 100).1 =
      (bufferSwitchLoop (fun _ => true) 1 [] (100 + bufDrops.errors)).1 :=
  C7_amended_errors_accumulated (fun _ => true) [bufDrops] 0 100 bufDrops
    [] 1 (by rfl) (by rfl) (by decide)

/-- C8: once the worker observes the exit flag at a wake (after `k`
wakes that observed it clear, each of which ran one harvest cycle), it
performs exactly one further `ddtrace_buffer_switch` — the final flush —
and terminates; the final flush is invoked unconditionally, whether or
not the buffers hold any data. -/
theorem C8_final_flush_after_exit (k : Nat) (rest : List Bool) :
    ddtrace_thread_trace true (List.replicate k false ++ true :: rest) =
      some (List.replicate k ThreadEv.harvest ++ [ThreadEv.finalFlush]) := by
  induction k with
  | zero =>
    simp [ddtrace_thread_trace, threadLoop]
  | succ k ih =>
    simp only [List.replicate_succ, List.cons_append]
    simp only [ddtrace_thread_trace, if_true] at ih ⊢
    simp only [threadLoop, Bool.false_eq_true, if_false]
    rw [ih]
    simp

/-- C10: when the one-time metadata export fails the worker returns at
once — its trace holds no harvest cycle and no final flush — while the
session created by the successful open is still registered at the head
of the bucket chain (the worker never touches the registry); it is
removed only by a later `ddtrace_close` on its `dtrace_state` (or the
`ddtrace_stop` sweep). -/
theorem C10_metadata_failure_session_stays (sched : List Bool)
    (mtu : Nat) (env : OpenEnv) (chain : List Client)
    (h : (ddtrace_open mtu env chain).2 = OpenResult.ok) :
    ddtrace_thread_trace false sched = some [] ∧
    ∃ handle,
      (ddtrace_open mtu env chain).1 = mkClient env handle :: chain ∧
      mkClient env handle ∈ (ddtrace_open mtu env chain).1 ∧
      ddtrace_close env.state ((ddtrace_open mtu env chain).1) = chain := by
  refine ⟨by simp [ddtrace_thread_trace], ?_⟩
  obtain ⟨-, handle, -, hchain⟩ := ddtrace_open_ok mtu env chain h
  refine ⟨handle, hchain, ?_, ?_⟩
  · rw [hchain]
    exact List.mem_cons_self _ _
  · rw [hchain]
    simp [ddtrace_close, mkClient]

/-- C9 counterexample: the claim states the returned buffer has nonzero
size only when the message key compares equal to `"ddtrace"`.  The code
compares with `strncmp(key, "ddtrace", key_len)`, truncated at the key's
own length: a message whose 2-byte key is `"dd"` — not equal to
`"ddtrace"` — is accepted and its 5-byte payload copied out. -/
theorem C9_short_key_accepted :
    dtc_get_buf true true (some msgShortKey) 2 =
      some { data := [1, 2, 3, 4, 5], size := 5, cpu := 2 } ∧
    msgShortKey.key ≠ some ddtraceKeyBytes := by
  decide

/-- C9 amended: the returned buffer has nonzero size exactly when the
consumed message has no error, nonzero length, and a non-`NULL` key whose
`key_len` bytes match the corresponding prefix of `"ddtrace"` (the
`strncmp` comparison truncates at the key's own length); in that case the
payload is copied and the size is the message length; in every other
case the returned buffer has size zero; and the function fails (`-1`,
here `none`) only when an allocation fails. -/
theorem C9_amended_key_check (abuf adata : Bool) (msg : Option KMsg)
    (cpu : Nat) :
    (dtc_get_buf abuf adata msg cpu = none →
      abuf = false ∨ adata = false) ∧
    (∀ b, dtc_get_buf abuf adata msg cpu = some b →
      (0 < b.size ↔ ∃ m k, msg = some m ∧ m.err = false ∧ 0 < m.len ∧
          m.key = some k ∧ strncmpEq k ddtraceKeyBytes k.length = true) ∧
      (∀ m, msg = some m → 0 < b.size →
        b.size = m.len ∧ b.data = m.payload.take m.len ∧ b.cpu = cpu)) := by
  rcases abuf with _ | _
  · simp [dtc_get_buf]
  · rcases msg with _ | m
    · simp [dtc_get_buf]
    · by_cases he : m.err = false ∧ 0 < m.len
      · rcases hk : m.key with _ | k
        · simp [dtc_get_buf, he, hk]
        · by_cases hs : strncmpEq k ddtraceKeyBytes k.length = true
          · rcases adata with _ | _
            · simp [dtc_get_buf, he, hk, hs]
            · simp [dtc_get_buf, he, hk, hs]
          · simp [dtc_get_buf, he, hk, hs]
      · simp [dtc_get_buf, he]
        intro herr hlen k hkey
        exact absurd ⟨herr, hlen⟩ he

/-- Witness for the amended C9 theorem: the exact-key message `msgGood`
yields a buffer of nonzero size. -/
theorem C9_amended_witness :
    0 < (RxBuf.mk [9, 8, 7] 3 0).size :=
  ((C9_amended_key_check true true (some msgGood) 0).2
      { data := [9, 8, 7], size := 3, cpu := 0 } (by decide)).1.mpr
    ⟨msgGood, ddtraceKeyBytes, rfl, rfl, by decide, rfl, by decide⟩

/-- Witness for C10 at a concrete successful open. -/
theorem C10_witness :
    ddtrace_thread_trace false [false] = some [] ∧
    ∃ handle,
      (ddtrace_open 1024 envDup []).1 = mkClient envDup handle :: [] ∧
      mkClient envDup handle ∈ (ddtrace_open 1024 envDup []).1 ∧
      ddtrace_close envDup.state ((ddtrace_open 1024 envDup []).1) = [] :=
  C10_metadata_failure_session_stays [false] 1024 envDup [] (by decide)

end DDTrace
